import Mathlib

/-!
Verification of the ChlorineContact-Tank disinfection calculation engine.

The engine (`src/utils/calculations.ts`) is a pure arithmetic pipeline mapping
a process state to a record of disinfection results.  We embed it shallowly
over the real numbers: every JavaScript number becomes an `ℝ`, `Math.max` /
`Math.min` become `max` / `min`, `Math.pow` becomes real exponentiation, and
each local variable of `calculateResults` becomes a named definition so that
the individual pipeline stages can be reasoned about separately.
-/

namespace ChlorineTank

/-- `ChlorineChemical` enum from `types.ts`. -/
inductive ChlorineChemical where
  | sodiumHypochlorite
  | chlorineGas
  deriving DecidableEq, Repr

/-- `TankType` enum from `types.ts`. -/
inductive TankType where
  | pipe
  | circular
  | rectangular
  | square
  deriving DecidableEq, Repr

/-- `TurbidityLevel` enum from `types.ts`. -/
inductive TurbidityLevel where
  | low
  | mid
  | high
  deriving DecidableEq, Repr

/-- `TankDimensions` from `types.ts`; optional fields default to `0`,
matching the destructuring `const { length = 0, width = 0, diameter = 0,
waterDepth = 0 } = dimensions` in `calculateResults`. -/
structure TankDimensions where
  length : ℝ := 0
  width : ℝ := 0
  diameter : ℝ := 0
  waterDepth : ℝ := 0

/-- `AppState` from `types.ts`. -/
structure AppState where
  flowRate : ℝ
  chemical : ChlorineChemical
  naOClConc : ℝ
  naOClDoseRate : ℝ
  gasDoseRate : ℝ
  tankType : TankType
  dimensions : TankDimensions
  isBaffled : Bool
  baffleFactor : ℝ
  pH : ℝ
  temperature : ℝ
  alkalinity : ℝ
  turbidity : TurbidityLevel

/-- `CalculationResults` from `types.ts`. -/
structure CalculationResults where
  chlorineDose : ℝ
  volume : ℝ
  effectiveVolume : ℝ
  retentionTime : ℝ
  t10 : ℝ
  ctDose : ℝ
  effectiveCt : ℝ
  postDosePh : ℝ
  hoClFraction : ℝ
  lrvBacteriaApplied : ℝ
  lrvBacteriaEffective : ℝ
  lrvVirusApplied : ℝ
  lrvVirusEffective : ℝ

/-- `KEEGAN_K_BACTERIA` from `constants.ts`. -/
def KEEGAN_K_BACTERIA : ℝ := 4.6

/-- `KEEGAN_THETA` from `constants.ts`. -/
def KEEGAN_THETA : ℝ := 1.07

/-- `TURBIDITY_SHIELDING_FACTORS` from `constants.ts`. -/
def TURBIDITY_SHIELDING_FACTORS : TurbidityLevel → ℝ
  | TurbidityLevel.low => 1.0
  | TurbidityLevel.mid => 0.8
  | TurbidityLevel.high => 0.5

noncomputable section

/-- `lookupVirusLrv` from `calculations.ts`: piecewise linear interpolation
for virus LRV on the Table 3 benchmarks (Ct 1.0 → 2.0, 2.0 → 3.0, 3.0 → 4.0),
floored at 0 for nonpositive Ct and extrapolated with slope 1 beyond 3. -/
def lookupVirusLrv (ct20 : ℝ) : ℝ :=
  if ct20 ≤ 0 then 0
  else if ct20 ≤ 1.0 then 2.0 * ct20
  else if ct20 ≤ 2.0 then 2.0 + (ct20 - 1.0) * 1.0
  else if ct20 ≤ 3.0 then 3.0 + (ct20 - 2.0) * 1.0
  else 4.0 + (ct20 - 3.0) * 1.0

/-- Step 1 of `calculateResults`: the chlorine dose `dose_mgL` in mg/L.
For sodium hypochlorite the mass rate is `naOClDoseRate * naOClConc / 100`
(kg/h); the dose is `massRate * 24 * 1000 / flowRate` when `flowRate > 0`
and `0` otherwise, and similarly from `gasDoseRate` for chlorine gas. -/
def dose_mgL (s : AppState) : ℝ :=
  if s.chemical = ChlorineChemical.sodiumHypochlorite then
    if s.flowRate > 0 then s.naOClDoseRate * s.naOClConc / 100 * 24 * 1000 / s.flowRate else 0
  else
    if s.flowRate > 0 then s.gasDoseRate * 24 * 1000 / s.flowRate else 0

/-- Step 2 of `calculateResults`: the tank volume `vol` (m³), by dispatch on
`tankType`, with each dimension clamped to `≥ 0` via `Math.max(0, ·)`. -/
def vol (s : AppState) : ℝ :=
  match s.tankType with
  | TankType.pipe =>
      Real.pi * (max 0 s.dimensions.diameter / 2) ^ 2 * max 0 s.dimensions.length
  | TankType.circular =>
      Real.pi * (max 0 s.dimensions.diameter / 2) ^ 2 * max 0 s.dimensions.waterDepth
  | TankType.rectangular =>
      max 0 s.dimensions.length * max 0 s.dimensions.width * max 0 s.dimensions.waterDepth
  | TankType.square =>
      max 0 s.dimensions.length * max 0 s.dimensions.width * max 0 s.dimensions.waterDepth

/-- Step 3 of `calculateResults`: theoretical retention time `t_min` (min),
`(vol / q_m3h) * 60` when both the volume and the hourly flow `flowRate / 24`
are positive, else `0`. -/
def t_min (s : AppState) : ℝ :=
  if vol s > 0 ∧ s.flowRate / 24 > 0 then vol s / (s.flowRate / 24) * 60 else 0

/-- Step 3 of `calculateResults`: the baffle factor `bf` actually used —
`Math.max(0, baffleFactor)` when the tank is baffled, else the fixed `0.1`. -/
def bf (s : AppState) : ℝ :=
  if s.isBaffled then max 0 s.baffleFactor else 0.1

/-- Step 3 of `calculateResults`: `t10 = t_min * bf`. -/
def t10 (s : AppState) : ℝ := t_min s * bf s

/-- Step 3 of `calculateResults`: `effectiveVol = vol * bf`. -/
def effectiveVol (s : AppState) : ℝ := vol s * bf s

/-- Step 4 of `calculateResults`: post-dose pH.  `bufferFactor =
max(alkalinity, 10)`; chlorine gas lowers pH by `2.5 * dose / bufferFactor`,
sodium hypochlorite raises it by `1.8 * dose / bufferFactor`; the result is
clamped to `[2, 12]` via `Math.max(2, Math.min(12, ·))`. -/
def postDosePh (s : AppState) : ℝ :=
  let bufferFactor := max s.alkalinity 10
  let raw :=
    if s.chemical = ChlorineChemical.chlorineGas then
      s.pH - 2.5 * dose_mgL s / bufferFactor
    else
      s.pH + 1.8 * dose_mgL s / bufferFactor
  max 2 (min 12 raw)

/-- Step 5 of `calculateResults`: the Morris (1966) pKa correlation,
`3000 / tKelvin - 10.0686 + 0.0253 * tKelvin` with `tKelvin = temperature +
273.15`. -/
def pKa (s : AppState) : ℝ :=
  3000 / (s.temperature + 273.15) - 10.0686 + 0.0253 * (s.temperature + 273.15)

/-- Step 5 of `calculateResults`: `hoClFraction = 1 / (1 + 10 ^ (postDosePh -
pKa))`, with a real-valued power. -/
def hoClFraction (s : AppState) : ℝ :=
  1 / (1 + (10 : ℝ) ^ (postDosePh s - pKa s))

/-- Step 6 of `calculateResults`: `ctDose = max(0, dose_mgL * t10)`. -/
def ctDose (s : AppState) : ℝ := max 0 (dose_mgL s * t10 s)

/-- Step 6 of `calculateResults`: `effectiveCt = max(0, dose_mgL *
hoClFraction * t10)`. -/
def effectiveCt (s : AppState) : ℝ := max 0 (dose_mgL s * hoClFraction s * t10 s)

/-- Step 7 of `calculateResults`: `tempCorrection = KEEGAN_THETA ^
(temperature - 20)`, a real-valued power. -/
def tempCorrection (s : AppState) : ℝ := KEEGAN_THETA ^ (s.temperature - 20)

/-- Maximum LRV credit, `MAX_LRV` in step 8 of `calculateResults`. -/
def MAX_LRV : ℝ := 4.0

/-- Step 8 of `calculateResults`: applied bacteria LRV.  Zero when turbidity
is high; otherwise `k * tempCorrection * turbidityFactor * ctDose` clamped to
`[0, MAX_LRV]`. -/
def lrvBacteriaApplied (s : AppState) : ℝ :=
  if s.turbidity ≠ TurbidityLevel.high then
    max 0 (min MAX_LRV
      (KEEGAN_K_BACTERIA * tempCorrection s * TURBIDITY_SHIELDING_FACTORS s.turbidity * ctDose s))
  else 0

/-- Step 8 of `calculateResults`: effective bacteria LRV (same rate constant
applied to `effectiveCt`). -/
def lrvBacteriaEffective (s : AppState) : ℝ :=
  if s.turbidity ≠ TurbidityLevel.high then
    max 0 (min MAX_LRV
      (KEEGAN_K_BACTERIA * tempCorrection s * TURBIDITY_SHIELDING_FACTORS s.turbidity *
        effectiveCt s))
  else 0

/-- Step 8 of `calculateResults`: applied virus LRV, `lookupVirusLrv (ctDose *
tempCorrection)` clamped to `[0, MAX_LRV]`, zero when turbidity is high. -/
def lrvVirusApplied (s : AppState) : ℝ :=
  if s.turbidity ≠ TurbidityLevel.high then
    max 0 (min MAX_LRV (lookupVirusLrv (ctDose s * tempCorrection s)))
  else 0

/-- Step 8 of `calculateResults`: effective virus LRV, `lookupVirusLrv
(effectiveCt * tempCorrection)` clamped to `[0, MAX_LRV]`, zero when turbidity
is high. -/
def lrvVirusEffective (s : AppState) : ℝ :=
  if s.turbidity ≠ TurbidityLevel.high then
    max 0 (min MAX_LRV (lookupVirusLrv (effectiveCt s * tempCorrection s)))
  else 0

/-- `calculateResults` from `calculations.ts`: assembles the result record
from the pipeline stages above. -/
def calculateResults (state : AppState) : CalculationResults where
  chlorineDose := dose_mgL state
  volume := vol state
  effectiveVolume := effectiveVol state
  retentionTime := t_min state
  t10 := t10 state
  ctDose := ctDose state
  effectiveCt := effectiveCt state
  postDosePh := postDosePh state
  hoClFraction := hoClFraction state
  lrvBacteriaApplied := lrvBacteriaApplied state
  lrvBacteriaEffective := lrvBacteriaEffective state
  lrvVirusApplied := lrvVirusApplied state
  lrvVirusEffective := lrvVirusEffective state

/-- The initial state of the application (`useState` initializer in the UI),
which is also Scenario A of the specification's test fixtures. -/
def scenarioA : AppState where
  flowRate := 10000
  chemical := ChlorineChemical.sodiumHypochlorite
  naOClConc := 12.5
  naOClDoseRate := 5
  gasDoseRate := 2
  tankType := TankType.rectangular
  dimensions := { length := 20, width := 5, waterDepth := 3 }
  isBaffled := true
  baffleFactor := 0.5
  pH := 7.5
  temperature := 20
  alkalinity := 100
  turbidity := TurbidityLevel.low

/-- Scenario B of the specification: Scenario A with high turbidity. -/
def scenarioB : AppState := { scenarioA with turbidity := TurbidityLevel.high }

/-- Scenario A with the feed switched off (`flowRate = 0`). -/
def scenarioZeroFlow : AppState := { scenarioA with flowRate := 0 }

/-- Scenario C of the specification: a pipe of diameter 0.5 m and length
10 m, with nonzero `width` and `waterDepth` fields that the pipe branch must
ignore. -/
def scenarioPipe : AppState :=
  { scenarioA with
    tankType := TankType.pipe
    dimensions := { length := 10, width := 7, diameter := 0.5, waterDepth := 9 } }

end

/-! ### Shape of the virus lookup -/

/-- All four positive branches of `lookupVirusLrv` agree with the single
expression `max 0 (min (2x) (x + 1))`. -/
theorem lookupVirusLrv_eq_closed (x : ℝ) :
    lookupVirusLrv x = max 0 (min (2 * x) (x + 1)) := by
  unfold lookupVirusLrv
  split_ifs with h1 h2 h3 h4
  · rw [eq_comm, max_eq_left (le_trans (min_le_left _ _) (by linarith))]
  · rw [min_eq_left (by linarith), max_eq_right (by linarith)]
    norm_num
  · rw [min_eq_right (by linarith), max_eq_right (by linarith)]
    ring
  · rw [min_eq_right (by linarith), max_eq_right (by linarith)]
    ring
  · rw [min_eq_right (by linarith), max_eq_right (by linarith)]
    ring

theorem lookupVirusLrv_monotone : Monotone lookupVirusLrv := by
  intro a b hab
  rw [lookupVirusLrv_eq_closed, lookupVirusLrv_eq_closed]
  exact max_le_max le_rfl (min_le_min (by linarith) (by linarith))

theorem lookupVirusLrv_continuous : Continuous lookupVirusLrv := by
  have h : lookupVirusLrv = fun x => max 0 (min (2 * x) (x + 1)) :=
    funext lookupVirusLrv_eq_closed
  rw [h]
  exact continuous_const.max ((continuous_const.mul continuous_id).min
    (continuous_id.add continuous_const))

theorem lookupVirusLrv_nonneg (x : ℝ) : 0 ≤ lookupVirusLrv x := by
  rw [lookupVirusLrv_eq_closed]
  exact le_max_left _ _

/-! ### Scenario A evaluation -/

theorem dose_mgL_scenarioA : dose_mgL scenarioA = 1.5 := by
  simp only [dose_mgL, scenarioA]
  norm_num

theorem vol_scenarioA : vol scenarioA = 300 := by
  show max 0 (20 : ℝ) * max 0 5 * max 0 3 = 300
  rw [max_eq_right (by norm_num : (0:ℝ) ≤ 20), max_eq_right (by norm_num : (0:ℝ) ≤ 5),
    max_eq_right (by norm_num : (0:ℝ) ≤ 3)]
  norm_num

theorem t_min_scenarioA : t_min scenarioA = 43.2 := by
  simp only [t_min, vol_scenarioA]
  norm_num [scenarioA]

theorem bf_scenarioA : bf scenarioA = 0.5 := by
  simp only [bf, scenarioA]
  norm_num

theorem t10_scenarioA : t10 scenarioA = 21.6 := by
  rw [t10, t_min_scenarioA, bf_scenarioA]
  norm_num

theorem ctDose_scenarioA : ctDose scenarioA = 32.4 := by
  rw [ctDose, dose_mgL_scenarioA, t10_scenarioA]
  rw [max_eq_right (by norm_num : (0:ℝ) ≤ 1.5 * 21.6)]
  norm_num

/-! ### Claim theorems -/

/-- C1 (counterexample): on the Scenario A input, `calculateResults` returns
`chlorineDose = 1.5` and `ctDose = 32.4`, so the claimed `chlorineDose ≈ 15.0`
and `ctDose ≈ 324` are off by a factor of 10: the dose is more than 10 below
15 − 3 and the Ct is more than 250 below 324 − 30. -/
theorem scenarioA_dose_not_15 :
    (calculateResults scenarioA).chlorineDose = 1.5 ∧
    (calculateResults scenarioA).ctDose = 32.4 ∧
    |(calculateResults scenarioA).chlorineDose - 15.0| > 3 ∧
    |(calculateResults scenarioA).ctDose - 324| > 30 := by
  have hd : (calculateResults scenarioA).chlorineDose = 1.5 := dose_mgL_scenarioA
  have hc : (calculateResults scenarioA).ctDose = 32.4 := ctDose_scenarioA
  refine ⟨hd, hc, ?_, ?_⟩
  · rw [hd]; rw [abs_of_neg (by norm_num)]; norm_num
  · rw [hc]; rw [abs_of_neg (by norm_num)]; norm_num

/-- C1 (amended): on the Scenario A input (flowRate=10000, sodium
hypochlorite at 12.5 % w/v dosed at 5 L/h, rectangular 20×5×3 m tank,
baffled with factor 0.5, pH 7.5, 20 °C, alkalinity 100, low turbidity),
`calculateResults` returns volume = 300 m³, chlorineDose = 1.5 mg/L,
retentionTime = 43.2 min, t10 = 21.6 min and ctDose = 32.4 mg·min/L. -/
theorem scenarioA_results :
    (calculateResults scenarioA).volume = 300 ∧
    (calculateResults scenarioA).chlorineDose = 1.5 ∧
    (calculateResults scenarioA).retentionTime = 43.2 ∧
    (calculateResults scenarioA).t10 = 21.6 ∧
    (calculateResults scenarioA).ctDose = 32.4 :=
  ⟨vol_scenarioA, dose_mgL_scenarioA, t_min_scenarioA, t10_scenarioA, ctDose_scenarioA⟩

/-- C4: the virus lookup is continuous and non-decreasing on `Ct20 ≥ 0`,
returns 0 for every `Ct20 ≤ 0`, extrapolates beyond `Ct20 = 3.0` with slope
1.0, and satisfies `lookup 1.0 = 2.0`, `lookup 2.0 = 3.0`, `lookup 3.0 =
4.0` exactly. -/
theorem lookupVirusLrv_spec :
    ContinuousOn lookupVirusLrv (Set.Ici 0) ∧
    MonotoneOn lookupVirusLrv (Set.Ici 0) ∧
    (∀ x : ℝ, x ≤ 0 → lookupVirusLrv x = 0) ∧
    (∀ x : ℝ, 3 < x → lookupVirusLrv x = 4.0 + (x - 3.0) * 1.0) ∧
    lookupVirusLrv 1.0 = 2.0 ∧ lookupVirusLrv 2.0 = 3.0 ∧ lookupVirusLrv 3.0 = 4.0 := by
  refine ⟨lookupVirusLrv_continuous.continuousOn,
    lookupVirusLrv_monotone.monotoneOn _, ?_, ?_, ?_, ?_, ?_⟩
  · intro x hx
    unfold lookupVirusLrv
    rw [if_pos hx]
  · intro x hx
    unfold lookupVirusLrv
    rw [if_neg (by linarith), if_neg (by linarith), if_neg (by linarith),
      if_neg (by linarith)]
  · norm_num [lookupVirusLrv]
  · norm_num [lookupVirusLrv]
  · norm_num [lookupVirusLrv]

/-- C4 (witness): instances of the quantified parts of
`lookupVirusLrv_spec` at concrete points. -/
theorem lookupVirusLrv_spec_witness :
    lookupVirusLrv (-1) = 0 ∧ lookupVirusLrv 5 = 4.0 + ((5:ℝ) - 3.0) * 1.0 :=
  ⟨lookupVirusLrv_spec.2.2.1 (-1) (by norm_num),
   lookupVirusLrv_spec.2.2.2.1 5 (by norm_num)⟩

/-! ### HOCl fraction bounds -/

theorem hoClFraction_pos (s : AppState) : 0 < hoClFraction s := by
  unfold hoClFraction
  have h := Real.rpow_pos_of_pos (show (0:ℝ) < 10 by norm_num) (postDosePh s - pKa s)
  positivity

theorem hoClFraction_lt_one (s : AppState) : hoClFraction s < 1 := by
  unfold hoClFraction
  have h := Real.rpow_pos_of_pos (show (0:ℝ) < 10 by norm_num) (postDosePh s - pKa s)
  rw [div_lt_one (by linarith)]
  linarith

/-- C3: for every input, the HOCl fraction lies strictly between 0 and 1 and
equals `1 / (1 + 10 ^ (postDosePh − pKa))` with the Morris pKa correlation
`3000/(T+273.15) − 10.0686 + 0.0253·(T+273.15)`. -/
theorem hoClFraction_spec (s : AppState) :
    0 < (calculateResults s).hoClFraction ∧
    (calculateResults s).hoClFraction < 1 ∧
    (calculateResults s).hoClFraction =
      1 / (1 + (10:ℝ) ^ ((calculateResults s).postDosePh -
        (3000 / (s.temperature + 273.15) - 10.0686 + 0.0253 * (s.temperature + 273.15)))) :=
  ⟨hoClFraction_pos s, hoClFraction_lt_one s, rfl⟩

/-- C3 (witness): the bounds instantiated on the Scenario A input. -/
theorem hoClFraction_spec_witness :
    0 < (calculateResults scenarioA).hoClFraction ∧
    (calculateResults scenarioA).hoClFraction < 1 :=
  ⟨(hoClFraction_spec scenarioA).1, (hoClFraction_spec scenarioA).2.1⟩

/-- C2: whenever turbidity is high, all four LRV outputs are exactly 0. -/
theorem turbidity_high_zero_lrv (s : AppState) (h : s.turbidity = TurbidityLevel.high) :
    (calculateResults s).lrvBacteriaApplied = 0 ∧
    (calculateResults s).lrvBacteriaEffective = 0 ∧
    (calculateResults s).lrvVirusApplied = 0 ∧
    (calculateResults s).lrvVirusEffective = 0 := by
  refine ⟨?_, ?_, ?_, ?_⟩ <;>
    simp [calculateResults, lrvBacteriaApplied, lrvBacteriaEffective,
      lrvVirusApplied, lrvVirusEffective, h]

/-- C2 (witness): the override on Scenario B (Scenario A with high
turbidity). -/
theorem turbidity_high_zero_lrv_witness :
    (calculateResults scenarioB).lrvBacteriaApplied = 0 ∧
    (calculateResults scenarioB).lrvBacteriaEffective = 0 ∧
    (calculateResults scenarioB).lrvVirusApplied = 0 ∧
    (calculateResults scenarioB).lrvVirusEffective = 0 :=
  turbidity_high_zero_lrv scenarioB rfl

/-- C6: the post-dose pH is the chemical-dependent shift of the input pH by
`dose / max(alkalinity, 10)` (−2.5× for chlorine gas, +1.8× for sodium
hypochlorite) clamped to `[2, 12]`, and hence always lies in `[2, 12]`. -/
theorem postDosePh_spec (s : AppState) :
    (calculateResults s).postDosePh =
      max 2 (min 12
        (if s.chemical = ChlorineChemical.chlorineGas then
          s.pH - 2.5 * (calculateResults s).chlorineDose / max s.alkalinity 10
        else
          s.pH + 1.8 * (calculateResults s).chlorineDose / max s.alkalinity 10)) ∧
    2 ≤ (calculateResults s).postDosePh ∧ (calculateResults s).postDosePh ≤ 12 := by
  refine ⟨rfl, ?_, ?_⟩
  · show (2:ℝ) ≤ max 2 _
    exact le_max_left _ _
  · show max (2:ℝ) (min 12 _) ≤ 12
    exact max_le (by norm_num) (min_le_left _ _)

/-- C6 (witness): the pH bounds instantiated on the Scenario A input. -/
theorem postDosePh_spec_witness :
    2 ≤ (calculateResults scenarioA).postDosePh ∧
    (calculateResults scenarioA).postDosePh ≤ 12 :=
  ⟨(postDosePh_spec scenarioA).2.1, (postDosePh_spec scenarioA).2.2⟩

/-- C7: with nonpositive flow rate, the dose, retention time, T10 and both
Ct values are exactly 0. -/
theorem zero_flow_zero_outputs (s : AppState) (h : s.flowRate ≤ 0) :
    (calculateResults s).chlorineDose = 0 ∧
    (calculateResults s).retentionTime = 0 ∧
    (calculateResults s).t10 = 0 ∧
    (calculateResults s).ctDose = 0 ∧
    (calculateResults s).effectiveCt = 0 := by
  have hflow : ¬ s.flowRate > 0 := not_lt.mpr h
  have hd : dose_mgL s = 0 := by
    unfold dose_mgL
    by_cases hc : s.chemical = ChlorineChemical.sodiumHypochlorite
    · rw [if_pos hc, if_neg hflow]
    · rw [if_neg hc, if_neg hflow]
  have ht : t_min s = 0 := by
    unfold t_min
    rw [if_neg]
    rintro ⟨-, hq⟩
    have h24 : s.flowRate / 24 ≤ 0 := div_nonpos_iff.mpr (Or.inr ⟨h, by norm_num⟩)
    linarith
  have ht10 : t10 s = 0 := by rw [t10, ht, zero_mul]
  refine ⟨hd, ht, ht10, ?_, ?_⟩
  · show ctDose s = 0
    rw [ctDose, hd, zero_mul, max_self]
  · show effectiveCt s = 0
    rw [effectiveCt, hd, zero_mul, zero_mul, max_self]

/-- C7 (witness): the zero-flow outputs on Scenario A with `flowRate = 0`. -/
theorem zero_flow_zero_outputs_witness :
    (calculateResults scenarioZeroFlow).chlorineDose = 0 ∧
    (calculateResults scenarioZeroFlow).retentionTime = 0 ∧
    (calculateResults scenarioZeroFlow).t10 = 0 ∧
    (calculateResults scenarioZeroFlow).ctDose = 0 ∧
    (calculateResults scenarioZeroFlow).effectiveCt = 0 :=
  zero_flow_zero_outputs scenarioZeroFlow le_rfl

/-! ### Nonnegativity of the pipeline stages -/

theorem dose_mgL_nonneg (s : AppState) (hf : 0 ≤ s.flowRate) (hc : 0 ≤ s.naOClConc)
    (hdr : 0 ≤ s.naOClDoseRate) (hg : 0 ≤ s.gasDoseRate) : 0 ≤ dose_mgL s := by
  unfold dose_mgL
  split_ifs
  · exact div_nonneg (mul_nonneg (mul_nonneg
      (div_nonneg (mul_nonneg hdr hc) (by norm_num)) (by norm_num)) (by norm_num)) hf
  · exact le_rfl
  · exact div_nonneg (mul_nonneg (mul_nonneg hg (by norm_num)) (by norm_num)) hf
  · exact le_rfl

theorem vol_nonneg (s : AppState) : 0 ≤ vol s := by
  unfold vol
  cases s.tankType
  · exact mul_nonneg (mul_nonneg Real.pi_pos.le (sq_nonneg _)) (le_max_left _ _)
  · exact mul_nonneg (mul_nonneg Real.pi_pos.le (sq_nonneg _)) (le_max_left _ _)
  · exact mul_nonneg (mul_nonneg (le_max_left _ _) (le_max_left _ _)) (le_max_left _ _)
  · exact mul_nonneg (mul_nonneg (le_max_left _ _) (le_max_left _ _)) (le_max_left _ _)

theorem t_min_nonneg (s : AppState) : 0 ≤ t_min s := by
  unfold t_min
  split_ifs with h
  · exact mul_nonneg (div_nonneg (vol_nonneg s) h.2.le) (by norm_num)
  · exact le_rfl

theorem bf_nonneg (s : AppState) : 0 ≤ bf s := by
  unfold bf
  split_ifs
  · exact le_max_left _ _
  · norm_num

theorem t10_nonneg (s : AppState) : 0 ≤ t10 s :=
  mul_nonneg (t_min_nonneg s) (bf_nonneg s)

theorem tempCorrection_pos (s : AppState) : 0 < tempCorrection s := by
  unfold tempCorrection KEEGAN_THETA
  exact Real.rpow_pos_of_pos (by norm_num) _

theorem turbidityFactor_nonneg (t : TurbidityLevel) : 0 ≤ TURBIDITY_SHIELDING_FACTORS t := by
  cases t <;> norm_num [TURBIDITY_SHIELDING_FACTORS]

/-- C5: all volume, time and dose outputs are nonnegative on nonnegative
numeric inputs. -/
theorem outputs_nonneg (s : AppState)
    (hf : 0 ≤ s.flowRate) (hc : 0 ≤ s.naOClConc) (hdr : 0 ≤ s.naOClDoseRate)
    (hg : 0 ≤ s.gasDoseRate) (_hlen : 0 ≤ s.dimensions.length)
    (_hw : 0 ≤ s.dimensions.width) (_hdia : 0 ≤ s.dimensions.diameter)
    (_hwd : 0 ≤ s.dimensions.waterDepth) (_hbf : 0 ≤ s.baffleFactor)
    (_halk : 0 ≤ s.alkalinity) :
    0 ≤ (calculateResults s).chlorineDose ∧ 0 ≤ (calculateResults s).volume ∧
    0 ≤ (calculateResults s).effectiveVolume ∧ 0 ≤ (calculateResults s).retentionTime ∧
    0 ≤ (calculateResults s).t10 ∧ 0 ≤ (calculateResults s).ctDose ∧
    0 ≤ (calculateResults s).effectiveCt :=
  ⟨dose_mgL_nonneg s hf hc hdr hg, vol_nonneg s,
   mul_nonneg (vol_nonneg s) (bf_nonneg s), t_min_nonneg s,
   t10_nonneg s, le_max_left _ _, le_max_left _ _⟩

/-- C5 (witness): nonnegativity of the outputs on the Scenario A input. -/
theorem outputs_nonneg_witness :
    0 ≤ (calculateResults scenarioA).chlorineDose ∧ 0 ≤ (calculateResults scenarioA).volume ∧
    0 ≤ (calculateResults scenarioA).effectiveVolume ∧
    0 ≤ (calculateResults scenarioA).retentionTime ∧
    0 ≤ (calculateResults scenarioA).t10 ∧ 0 ≤ (calculateResults scenarioA).ctDose ∧
    0 ≤ (calculateResults scenarioA).effectiveCt :=
  outputs_nonneg scenarioA (by norm_num [scenarioA]) (by norm_num [scenarioA])
    (by norm_num [scenarioA]) (by norm_num [scenarioA]) (by norm_num [scenarioA])
    (by norm_num [scenarioA]) (by norm_num [scenarioA]) (by norm_num [scenarioA])
    (by norm_num [scenarioA]) (by norm_num [scenarioA])

/-- C8: the volume is an exhaustive dispatch on `tankType` with every
dimension clamped to `≥ 0`, and the pipe branch with diameter 0.5 and length
10 yields `π·0.25²·10` independently of `width` and `waterDepth`. -/
theorem volume_dispatch :
    (∀ s : AppState, (calculateResults s).volume =
      match s.tankType with
      | TankType.pipe =>
          Real.pi * (max 0 s.dimensions.diameter / 2) ^ 2 * max 0 s.dimensions.length
      | TankType.circular =>
          Real.pi * (max 0 s.dimensions.diameter / 2) ^ 2 * max 0 s.dimensions.waterDepth
      | TankType.rectangular =>
          max 0 s.dimensions.length * max 0 s.dimensions.width * max 0 s.dimensions.waterDepth
      | TankType.square =>
          max 0 s.dimensions.length * max 0 s.dimensions.width * max 0 s.dimensions.waterDepth) ∧
    (∀ s : AppState, s.tankType = TankType.pipe → s.dimensions.diameter = 0.5 →
      s.dimensions.length = 10 →
      (calculateResults s).volume = Real.pi * 0.25 ^ 2 * 10) := by
  constructor
  · intro s
    rfl
  · intro s hpipe hd hl
    have h1 : (calculateResults s).volume =
        Real.pi * (max 0 s.dimensions.diameter / 2) ^ 2 * max 0 s.dimensions.length := by
      show vol s = _
      unfold vol
      rw [hpipe]
    rw [h1, hd, hl, max_eq_right (by norm_num : (0:ℝ) ≤ 0.5),
      max_eq_right (by norm_num : (0:ℝ) ≤ 10)]
    norm_num

/-- C8 (witness): the pipe-branch volume on Scenario C, whose `width = 7` and
`waterDepth = 9` are ignored. -/
theorem volume_dispatch_witness :
    (calculateResults scenarioPipe).volume = Real.pi * 0.25 ^ 2 * 10 :=
  volume_dispatch.2 scenarioPipe rfl rfl rfl

/-- C9: with `baffleFactor ∈ [0, 1]`, the factor actually used is the
configured value when baffled and 0.1 otherwise, and `t10` and
`effectiveVolume` scale `retentionTime` and `volume` by it. -/
theorem baffle_factor_spec (s : AppState) (h0 : 0 ≤ s.baffleFactor)
    (_h1 : s.baffleFactor ≤ 1) :
    (calculateResults s).t10 =
      (calculateResults s).retentionTime * (if s.isBaffled then s.baffleFactor else 0.1) ∧
    (calculateResults s).effectiveVolume =
      (calculateResults s).volume * (if s.isBaffled then s.baffleFactor else 0.1) := by
  have hbf : bf s = if s.isBaffled then s.baffleFactor else 0.1 := by
    unfold bf
    split_ifs
    · exact max_eq_right h0
    · rfl
  constructor
  · show t_min s * bf s = t_min s * _
    rw [hbf]
  · show vol s * bf s = vol s * _
    rw [hbf]

/-- C9 (witness): the scaling on the Scenario A input (baffled, factor 0.5). -/
theorem baffle_factor_spec_witness :
    (calculateResults scenarioA).t10 =
      (calculateResults scenarioA).retentionTime *
        (if scenarioA.isBaffled then scenarioA.baffleFactor else 0.1) ∧
    (calculateResults scenarioA).effectiveVolume =
      (calculateResults scenarioA).volume *
        (if scenarioA.isBaffled then scenarioA.baffleFactor else 0.1) :=
  baffle_factor_spec scenarioA (by norm_num [scenarioA]) (by norm_num [scenarioA])

/-! ### Effective Ct versus applied Ct -/

theorem effectiveCt_le_ctDose (s : AppState) (hd : 0 ≤ dose_mgL s) :
    effectiveCt s ≤ ctDose s := by
  unfold effectiveCt ctDose
  apply max_le_max le_rfl
  have h1 := hoClFraction_lt_one s
  have ht := t10_nonneg s
  calc dose_mgL s * hoClFraction s * t10 s
      ≤ dose_mgL s * 1 * t10 s :=
        mul_le_mul_of_nonneg_right (mul_le_mul_of_nonneg_left h1.le hd) ht
    _ = dose_mgL s * t10 s := by ring

/-- C10: on nonnegative flow and dosing inputs, each effective LRV is at most
the corresponding applied LRV. -/
theorem effective_le_applied (s : AppState)
    (hf : 0 ≤ s.flowRate) (hc : 0 ≤ s.naOClConc) (hdr : 0 ≤ s.naOClDoseRate)
    (hg : 0 ≤ s.gasDoseRate) :
    (calculateResults s).lrvBacteriaEffective ≤ (calculateResults s).lrvBacteriaApplied ∧
    (calculateResults s).lrvVirusEffective ≤ (calculateResults s).lrvVirusApplied := by
  have hd := dose_mgL_nonneg s hf hc hdr hg
  have hct := effectiveCt_le_ctDose s hd
  have htc := tempCorrection_pos s
  constructor
  · show lrvBacteriaEffective s ≤ lrvBacteriaApplied s
    unfold lrvBacteriaEffective lrvBacteriaApplied
    split_ifs with h
    · refine max_le_max le_rfl (min_le_min le_rfl ?_)
      refine mul_le_mul_of_nonneg_left hct ?_
      exact mul_nonneg (mul_nonneg (by norm_num [KEEGAN_K_BACTERIA]) htc.le)
        (turbidityFactor_nonneg s.turbidity)
    · exact le_rfl
  · show lrvVirusEffective s ≤ lrvVirusApplied s
    unfold lrvVirusEffective lrvVirusApplied
    split_ifs with h
    · exact max_le_max le_rfl (min_le_min le_rfl
        (lookupVirusLrv_monotone (mul_le_mul_of_nonneg_right hct htc.le)))
    · exact le_rfl

/-- C10 (witness): the comparison instantiated on the Scenario A input. -/
theorem effective_le_applied_witness :
    (calculateResults scenarioA).lrvBacteriaEffective ≤
      (calculateResults scenarioA).lrvBacteriaApplied ∧
    (calculateResults scenarioA).lrvVirusEffective ≤
      (calculateResults scenarioA).lrvVirusApplied :=
  effective_le_applied scenarioA (by norm_num [scenarioA]) (by norm_num [scenarioA])
    (by norm_num [scenarioA]) (by norm_num [scenarioA])

end ChlorineTank
